import Mathlib

/-
Shallow embedding of `src/flowlib.py` (an async HTTP flow-execution engine).

Modelling conventions:
* The event loop runs one task at a time; the embedding executes the flow
  sequentially, threading explicit state (the response cache and a counter of
  network requests issued so far) and emitting an explicit trace of observable
  events (requests, sleeps, log lines, linkage-function and callback
  invocations).  `asyncio.gather` is modelled as left-to-right execution of the
  gathered coroutines; the semaphore (`workers`) only limits concurrency and is
  not observable in a sequential run.
* The network is an oracle `World.net : Nat → NetOutcome` giving the outcome of
  the n-th request issued during the run: either a received response (status +
  parsed JSON body), a raised `aiohttp.ClientResponseError` carrying a status,
  or any other raised exception (e.g. a connection reset).
* `jsonpath_ng` is an external library; it is modelled by the oracle
  `World.find : String → Json → List Json`, returning the values matched by a
  path expression against a document, in document order
  (`[match.value for match in parse(expr).find(doc)]`).
* Python `None` is `Json.null`; a Python dict is an association list in which
  assignment to an existing key overwrites in place and a new key is appended,
  which matches insertion-order iteration of Python dicts.
-/

set_option maxRecDepth 4000

namespace Flowlib

/-- JSON values, as produced by `response.json()`. -/
inductive Json where
  | null : Json
  | bool (b : Bool) : Json
  | num (n : Int) : Json
  | str (s : String) : Json
  | arr (items : List Json) : Json
  | obj (fields : List (String × Json)) : Json

/-- `URLParam` / `DataParam` marker classes. -/
inductive ParamKind where
  | url : ParamKind
  | data : ParamKind
deriving DecidableEq

/-- A parameter map `Dict[str, str]` (Python dict: no duplicate keys in use). -/
abbrev Params := List (String × String)

/-- The value stored for one output field of a fetch: either a single non-list
Python value (`Json.null` models Python `None`, the no-match sentinel) or a
Python list of extracted values. -/
inductive FieldVal where
  | scalar (v : Json) : FieldVal
  | vals (vs : List Json) : FieldVal

/-- `outputs` dict of a fetch: field name mapped to its value. -/
abbrev OutputMap := List (String × FieldVal)

/-- The dict returned by a fetch: either `\x7b'input': params, 'output': outputs\x7d`
or the bare empty dict `\x7b\x7d` returned by `fetch_with_retry` after exhausting
retries. -/
inductive FetchRes where
  | mk (input : Params) (output : OutputMap) : FetchRes
  | empty : FetchRes

/-- Exceptions the model distinguishes. -/
inductive Exc where
  | keyError : Exc
  | respError (status : Nat) : Exc
  | otherError : Exc
deriving DecidableEq

/-- An HTTP response that was successfully received (`status`, parsed body). -/
structure Response where
  status : Nat
  body : Json

/-- Outcome of one attempted network request. -/
inductive NetOutcome where
  | resp (r : Response) : NetOutcome
  | raiseResp (status : Nat) : NetOutcome
  | raiseOther : NetOutcome

/-- The request handed to `session.request`. -/
structure Request where
  method : String
  url : String
  headers : Option (List (String × String))
  cookies : Option (List (String × String))
  data : List (String × Json)

/-- The `API` dataclass.  `__post_init__` replaces `None` by the empty dict;
the embedding starts from the already-defaulted dicts.  Defaults in the
source: `method="GET"` and empty dicts for the rest. -/
structure API where
  base_url : String
  method : String
  input_params : List (String × ParamKind)
  output_params : List (String × String)
  credentials : List (String × List (String × String))
  error_handlers : List (Nat × (Response → OutputMap))
  data_template : List (String × Json)

/-- Constructor applying the source's default values for every optional field. -/
def mkAPI (base_url : String) : API :=
  ⟨base_url, ("GET"), [], [], [], [], []⟩

/-- The `Getter` constructor arguments (source defaults: 5 and 5).  The cache
starts empty and is threaded explicitly through the operations below. -/
structure Getter where
  max_retries : Nat
  workers : Nat

/-- The external world: the network oracle and the `jsonpath_ng` extractor. -/
structure World where
  net : Nat → NetOutcome
  find : String → Json → List Json

/-- `cache_key = (api.base_url, frozenset(params.items()))`. -/
abbrev CacheKey := String × Finset (String × String)

/-- `self.cache`, a dict keyed by `CacheKey`. -/
abbrev Cache := List (CacheKey × FetchRes)

/-- The shared `results` accumulator: endpoint base URL mapped to the most
recent `FetchRes` for that endpoint. -/
abbrev Accum := List (String × FetchRes)

/-- Observable events of a run, in order of occurrence. -/
inductive Event where
  | fetchCall (base_url : String) (params : Params) : Event
  | request (r : Request) : Event
  | sleep (t : Nat) : Event
  | logStatus (url : String) (status : Nat) : Event
  | logRetry (base_url : String) (status : Nat) : Event
  | logExhausted (base_url : String) : Event
  | linkageCall (field : String) (value : Json) : Event
  | callbackCall (snapshot : Accum) : Event

/-- Python dict read `m.get(k)` / `m[k]` on an association list. -/
def lookupA {κ β : Type} [DecidableEq κ] (m : List (κ × β)) (k : κ) : Option β :=
  match m with
  | [] => none
  | (k0, v) :: rest => if k0 = k then some v else lookupA rest k

/-- Python dict write `m[k] = v`: overwrite in place, or append a new key. -/
def setA {κ β : Type} [DecidableEq κ] (m : List (κ × β)) (k : κ) (v : β) : List (κ × β) :=
  match m with
  | [] => [(k, v)]
  | (k0, v0) :: rest => if k0 = k then (k, v) :: rest else (k0, v0) :: setA rest k v

/-- Python `m.update(delta)`: write every entry of `delta` into `m`. -/
def updateA {κ β : Type} [DecidableEq κ] (m : List (κ × β)) (delta : List (κ × β)) : List (κ × β) :=
  delta.foldl (fun acc kv => setA acc kv.1 kv.2) m

/-- `(api.base_url, frozenset(params.items()))`. -/
def cacheKey (api : API) (params : Params) : CacheKey :=
  (api.base_url, params.toFinset)

/-- Character-level worker for `str.format`: each `\x7bname\x7d` placeholder in the
template is replaced by the bound parameter value.  (Python raises `KeyError`
on an unbound placeholder; no declared behaviour depends on that corner, and
the model substitutes the empty string there.)  Codes 123 and 125 are the
opening and closing brace characters. -/
def formatChars (template : List Char) (ps : Params) : List Char :=
  match template with
  | [] => []
  | c :: cs =>
    if c.toNat = 123 then
      let name : String := ⟨cs.takeWhile (fun d => d.toNat ≠ 125)⟩
      let rest := (cs.dropWhile (fun d => d.toNat ≠ 125)).drop 1
      ((lookupA ps name).getD ("")).toList ++ formatChars rest ps
    else
      c :: formatChars cs ps
termination_by template.length
decreasing_by
  · simp only [List.length_cons, List.length_drop]
    have h : ∀ (l : List Char), (l.dropWhile fun d => decide (d.toNat ≠ 125)).length ≤ l.length := by
      intro l
      induction l with
      | nil => simp [List.dropWhile]
      | cons a as ih =>
        simp only [List.dropWhile]
        cases decide (a.toNat ≠ 125)
        · simp
        · simpa using Nat.le_succ_of_le ih
    have := h cs
    omega
  · simp

/-- `API.build_url`: substitute the URL parameters into the base URL. -/
def build_url (api : API) (url_params : Params) : String :=
  ⟨formatChars api.base_url.toList url_params⟩

mutual

/-- One pass of the loop body of `Getter.populate_template` over the items of a
non-empty template dict. -/
def populateItems (items : List (String × Json)) (ps : Params) : List (String × Json) :=
  match items with
  | [] => []
  | (k, v) :: rest => (k, populateValue k v ps) :: populateItems rest ps

/-- One template value: a nested dict recurses (an empty nested dict, being
falsy, returns the parameter dict itself); a leaf is replaced by
`params.get(key, value)`. -/
def populateValue (k : String) (v : Json) (ps : Params) : Json :=
  match v with
  | Json.obj [] => Json.obj (ps.map fun p => (p.1, Json.str p.2))
  | Json.obj fields => Json.obj (populateItems fields ps)
  | v =>
    match lookupA ps k with
    | some s => Json.str s
    | none => v

end

/-- `Getter.populate_template`: an empty template returns the flat parameter
dict; otherwise every item is populated. -/
def populateTemplate (template : List (String × Json)) (ps : Params) : List (String × Json) :=
  match template with
  | [] => ps.map fun p => (p.1, Json.str p.2)
  | items => populateItems items ps

/-- Does `api.input_params.get(k)` hold a `URLParam`? -/
def isUrlKind (k : Option ParamKind) : Bool :=
  match k with
  | some ParamKind.url => true
  | _ => false

/-- Does `api.input_params.get(k)` hold a `DataParam`? -/
def isDataKind (k : Option ParamKind) : Bool :=
  match k with
  | some ParamKind.data => true
  | _ => false

/-- `url_parameters`: the sub-dict of `params` whose keys are typed `URLParam`. -/
def urlParamsOf (api : API) (params : Params) : Params :=
  params.filter fun p => isUrlKind (lookupA api.input_params p.1)

/-- `data_parameters`: the sub-dict of `params` whose keys are typed `DataParam`. -/
def dataParamsOf (api : API) (params : Params) : Params :=
  params.filter fun p => isDataKind (lookupA api.input_params p.1)

/-- The request `Getter.fetch` hands to `session.request`. -/
def buildRequest (api : API) (params : Params) : Request :=
  ⟨api.method,
   build_url api (urlParamsOf api params),
   lookupA api.credentials ("headers"),
   lookupA api.credentials ("cookies"),
   populateTemplate api.data_template (dataParamsOf api params)⟩

/-- The extraction loop of `Getter.fetch` on a 200 response:
`outputs[param_name] = matches or None` for every declared output field, where
`matches` is the list of jsonpath matches in document order. -/
def extractOutputs (w : World) (output_params : List (String × String)) (body : Json) : OutputMap :=
  output_params.map fun p =>
    match w.find p.2 body with
    | [] => (p.1, FieldVal.scalar Json.null)
    | v :: vs => (p.1, FieldVal.vals (v :: vs))

/-- `Getter.fetch`: cache lookup, request, per-status handling, cache store.
Returns the result (or raised exception), the new cache, the new request
counter and the events emitted by this call. -/
def fetch (w : World) (api : API) (params : Params) (cache : Cache) (nreq : Nat) :
    Except Exc FetchRes × Cache × Nat × List Event :=
  match lookupA cache (cacheKey api params) with
  | some r => (Except.ok r, cache, nreq, [])
  | none =>
    let req := buildRequest api params
    match w.net nreq with
    | NetOutcome.raiseResp s => (Except.error (Exc.respError s), cache, nreq + 1, [Event.request req])
    | NetOutcome.raiseOther => (Except.error Exc.otherError, cache, nreq + 1, [Event.request req])
    | NetOutcome.resp response =>
      if response.status = 200 then
        let result := FetchRes.mk params (extractOutputs w api.output_params response.body)
        (Except.ok result, setA cache (cacheKey api params) result, nreq + 1, [Event.request req])
      else
        match lookupA api.error_handlers response.status with
        | some handler =>
          let result := FetchRes.mk params (handler response)
          (Except.ok result, setA cache (cacheKey api params) result, nreq + 1, [Event.request req])
        | none =>
          let result := FetchRes.mk params []
          (Except.ok result, setA cache (cacheKey api params) result, nreq + 1,
           [Event.request req, Event.logStatus req.url response.status])

/-- The retry loop of `Getter.fetch_with_retry`: `fuel` iterations remain and
`retry` iterations have already run (`fuel + retry = max_retries`).  Only
`aiohttp.ClientResponseError` is caught; it is logged and followed by
`asyncio.sleep(2 ** retry)` before the next attempt.  Any other exception
propagates.  When the loop ends the failure is logged and the empty dict is
returned. -/
def fetchRetryGo (w : World) (api : API) (params : Params) :
    Nat → Nat → Cache → Nat → Except Exc FetchRes × Cache × Nat × List Event
  | 0, _, cache, nreq => (Except.ok FetchRes.empty, cache, nreq, [Event.logExhausted api.base_url])
  | fuel + 1, retry, cache, nreq =>
    match fetch w api params cache nreq with
    | (Except.ok r, c, n, ev) => (Except.ok r, c, n, ev)
    | (Except.error (Exc.respError s), c, n, ev) =>
      let rec1 := fetchRetryGo w api params fuel (retry + 1) c n
      (rec1.1, rec1.2.1, rec1.2.2.1,
       ev ++ Event.logRetry api.base_url s :: Event.sleep (2 ^ retry) :: rec1.2.2.2)
    | (Except.error e, c, n, ev) => (Except.error e, c, n, ev)

/-- `Getter.fetch_with_retry`.  The semaphore acquisition is not observable in
the sequential model; the entry of the call is recorded as a `fetchCall`
event. -/
def fetch_with_retry (g : Getter) (w : World) (api : API) (params : Params)
    (cache : Cache) (nreq : Nat) : Except Exc FetchRes × Cache × Nat × List Event :=
  let r := fetchRetryGo w api params g.max_retries 0 cache nreq
  (r.1, r.2.1, r.2.2.1, Event.fetchCall api.base_url params :: r.2.2.2)

/-- `start_response['output']`: raises `KeyError` on the bare empty dict. -/
def FetchRes.getOutput : FetchRes → Except Exc OutputMap
  | FetchRes.mk _ output => Except.ok output
  | FetchRes.empty => Except.error Exc.keyError

/-- `if not isinstance(values, list): values = [values]`. -/
def FieldVal.toList : FieldVal → List Json
  | FieldVal.scalar v => [v]
  | FieldVal.vals vs => vs

/-- One step of a flow: an `APILinkage` (start API, end API, linkage function
mapping the singleton dict `\x7bfield: value\x7d` to a list of downstream parameter
dicts) or a `PythonLinkage` (function from the accumulator to a results
delta). -/
inductive FlowStep where
  | apiLinkage (start_api : API) (end_api : API)
      (linkage_function : String → Json → List Params) : FlowStep
  | pythonLinkage (function : Accum → Accum) : FlowStep

/-- `asyncio.gather` over `fetch_with_retry` calls for the downstream parameter
maps, modelled left to right; the first raised exception propagates. -/
def gatherFetch (g : Getter) (w : World) (api : API) :
    List Params → Cache → Nat → Except Exc (List FetchRes) × Cache × Nat × List Event
  | [], cache, nreq => (Except.ok [], cache, nreq, [])
  | p :: rest, cache, nreq =>
    match fetch_with_retry g w api p cache nreq with
    | (Except.error e, c, n, ev) => (Except.error e, c, n, ev)
    | (Except.ok r, c, n, ev) =>
      match gatherFetch g w api rest c n with
      | (Except.error e, c2, n2, ev2) => (Except.error e, c2, n2, ev ++ ev2)
      | (Except.ok rs, c2, n2, ev2) => (Except.ok (r :: rs), c2, n2, ev ++ ev2)

/-- The delivery loop over the gathered end responses: write each response
into the accumulator under the end API's identity, then invoke the callback
with the current accumulator. -/
def deliverResponses (end_url : String) : List FetchRes → Accum → Accum × List Event
  | [], results => (results, [])
  | r :: rest, results =>
    let results2 := setA results end_url r
    let d := deliverResponses end_url rest results2
    (d.1, Event.callbackCall results2 :: d.2)

/-- The per-value fan-out loop of `process_linkage`: for each value of one
output field, invoke the linkage function on the singleton dict
`\x7bkey: value\x7d`, gather the downstream fetches, then deliver the responses. -/
def processValues (g : Getter) (w : World) (end_api : API)
    (lf : String → Json → List Params) (key : String) :
    List Json → Accum → Cache → Nat → Except Exc Accum × Cache × Nat × List Event
  | [], results, cache, nreq => (Except.ok results, cache, nreq, [])
  | v :: rest, results, cache, nreq =>
    match gatherFetch g w end_api (lf key v) cache nreq with
    | (Except.error e, c, n, ev) => (Except.error e, c, n, Event.linkageCall key v :: ev)
    | (Except.ok rs, c, n, ev) =>
      let d := deliverResponses end_api.base_url rs results
      match processValues g w end_api lf key rest d.1 c n with
      | (res, c2, n2, ev2) =>
        (res, c2, n2, Event.linkageCall key v :: ev ++ d.2 ++ ev2)

/-- The per-field loop of `process_linkage`: fields are visited in declaration
order and each field's value is normalised to a list before fan-out. -/
def processFields (g : Getter) (w : World) (end_api : API)
    (lf : String → Json → List Params) :
    OutputMap → Accum → Cache → Nat → Except Exc Accum × Cache × Nat × List Event
  | [], results, cache, nreq => (Except.ok results, cache, nreq, [])
  | (key, fv) :: rest, results, cache, nreq =>
    match processValues g w end_api lf key fv.toList results cache nreq with
    | (Except.error e, c, n, ev) => (Except.error e, c, n, ev)
    | (Except.ok results2, c, n, ev) =>
      match processFields g w end_api lf rest results2 c n with
      | (res, c2, n2, ev2) => (res, c2, n2, ev ++ ev2)

/-- `process_linkage`: an `APILinkage` fetches the start API, records the
result in the accumulator, then fans out over its output fields; a
`PythonLinkage` applies its function to the accumulator, merges the returned
delta (`results.update(...)`) and invokes the callback once. -/
def process_linkage (g : Getter) (w : World) (step : FlowStep) (params : Params)
    (results : Accum) (cache : Cache) (nreq : Nat) :
    Except Exc Accum × Cache × Nat × List Event :=
  match step with
  | FlowStep.apiLinkage start_api end_api lf =>
    match fetch_with_retry g w start_api params cache nreq with
    | (Except.error e, c, n, ev) => (Except.error e, c, n, ev)
    | (Except.ok start_response, c, n, ev) =>
      let results2 := setA results start_api.base_url start_response
      match start_response.getOutput with
      | Except.error e => (Except.error e, c, n, ev)
      | Except.ok outputs =>
        match processFields g w end_api lf outputs results2 c n with
        | (res, c2, n2, ev2) => (res, c2, n2, ev ++ ev2)
  | FlowStep.pythonLinkage f =>
    let transformed := f results
    let results2 := updateA results transformed
    (Except.ok results2, cache, nreq, [Event.callbackCall results2])

/-- The task list of `run_flow`, modelled as sequential execution of the steps;
every step is seeded with the same `start_params` and the first raised
exception propagates out of the gather. -/
def runFlowGo (g : Getter) (w : World) :
    List FlowStep → Params → Accum → Cache → Nat →
    Except Exc Accum × Cache × Nat × List Event
  | [], _, results, cache, nreq => (Except.ok results, cache, nreq, [])
  | step :: rest, params, results, cache, nreq =>
    match process_linkage g w step params results cache nreq with
    | (Except.error e, c, n, ev) => (Except.error e, c, n, ev)
    | (Except.ok results2, c, n, ev) =>
      match runFlowGo g w rest params results2 c n with
      | (res, c2, n2, ev2) => (res, c2, n2, ev ++ ev2)

/-- `Getter.run_flow` (and its `run` wrapper): fresh accumulator, the getter's
cache (empty at construction), no requests issued yet. -/
def run_flow (g : Getter) (w : World) (flow : List FlowStep) (start_params : Params) :
    Except Exc Accum × Cache × Nat × List Event :=
  runFlowGo g w flow start_params [] [] 0

/-- Number of network requests recorded in a trace. -/
def reqCount (ev : List Event) : Nat :=
  (ev.filter fun e => match e with | Event.request _ => true | _ => false).length

/-- The backoff sleeps recorded in a trace, in order. -/
def sleepsOf (ev : List Event) : List Nat :=
  ev.filterMap fun e => match e with | Event.sleep t => some t | _ => none

/-- Number of callback invocations recorded in a trace. -/
def callbackCount (ev : List Event) : Nat :=
  (ev.filter fun e => match e with | Event.callbackCall _ => true | _ => false).length

/-- Number of `fetch_with_retry` entries for a given endpoint in a trace. -/
def fetchCallCount (u : String) (ev : List Event) : Nat :=
  (ev.filter fun e => match e with | Event.fetchCall b _ => b = u | _ => false).length

/-- A sequence of plain `fetch` calls, threading cache and request counter. -/
def fetchSeq (w : World) (api : API) :
    List Params → Cache → Nat → List (Except Exc FetchRes) × Cache × Nat × List Event
  | [], cache, nreq => ([], cache, nreq, [])
  | p :: rest, cache, nreq =>
    match fetch w api p cache nreq with
    | (r, c, n, ev) =>
      match fetchSeq w api rest c n with
      | (rs, c2, n2, ev2) => (r :: rs, c2, n2, ev ++ ev2)

/-! ### Concrete fixtures used to evaluate the model on closed inputs -/

/-- A network on which every attempt raises `ClientResponseError(503)`. -/
def wC1 : World := ⟨fun _ => NetOutcome.raiseResp 503, fun _ _ => []⟩

def apiC1a : API := mkAPI ("a1")

def apiC1b : API := mkAPI ("b1")

def lfC1 : String → Json → List Params := fun k _ => [[(k, (""))]]

/-- A network that always answers 200 with an empty JSON object. -/
def wC2 : World := ⟨fun _ => NetOutcome.resp ⟨200, Json.obj []⟩, fun _ _ => []⟩

def apiC2 : API := mkAPI ("u2")

def pC2a : Params := [(("a"), ("1")), (("b"), ("2"))]

/-- The same parameter map as `pC2a`, in the other insertion order. -/
def pC2b : Params := [(("b"), ("2")), (("a"), ("1"))]

def rC2 : FetchRes := FetchRes.mk pC2a []

def cC2 : Cache := setA [] (cacheKey apiC2 pC2a) rC2

def evC2 : List Event := [Event.request (buildRequest apiC2 pC2a)]

/-- A network on which every attempt fails with a connection-reset-style
error (an exception that is not a `ClientResponseError`). -/
def wC3other : World := ⟨fun _ => NetOutcome.raiseOther, fun _ _ => []⟩

/-- A network on which every attempt raises `ClientResponseError(500)`. -/
def wC3resp : World := ⟨fun _ => NetOutcome.raiseResp 500, fun _ _ => []⟩

/-- A network that always answers 404 with a null body. -/
def wC3nf : World := ⟨fun _ => NetOutcome.resp ⟨404, Json.null⟩, fun _ _ => []⟩

def apiC3 : API := mkAPI ("u3")

/-- A network answering 200 whose extractor matches two values under the
path `$.t` and nothing under any other path. -/
def wC4 : World :=
  ⟨fun _ => NetOutcome.resp ⟨200, Json.obj []⟩,
   fun expr _ => if expr = ("$.t") then [Json.str ("x"), Json.str ("y")] else []⟩

def apiC4 : API := ⟨("u4"), ("GET"), [], [(("t"), ("$.t")), (("m"), ("$.m"))], [], [], []⟩

def wC5 : World := ⟨fun _ => NetOutcome.resp ⟨404, Json.null⟩, fun _ _ => []⟩

/-- An error handler producing a synthetic output map from the raw response. -/
def handlerC5 : Response → OutputMap := fun resp => [(("err"), FieldVal.scalar (Json.num resp.status))]

/-- An endpoint with a declared output field and a handler registered for 404:
on a 404 the handler's output replaces extraction entirely. -/
def apiC5h : API := ⟨("u5h"), ("GET"), [], [(("f"), ("$.f"))], [], [(404, handlerC5)], []⟩

def apiC5n : API := mkAPI ("u5n")

def gC6 : Getter := ⟨1, 5⟩

def wC6 : World :=
  ⟨fun _ => NetOutcome.resp ⟨200, Json.obj []⟩,
   fun _ _ => [Json.str ("v1"), Json.str ("v2")]⟩

def apiC6a : API := ⟨("a6"), ("GET"), [], [(("ids"), ("$.ids"))], [], [], []⟩

def apiC6b : API := mkAPI ("b6")

/-- A linkage function returning exactly one downstream parameter map per
input value. -/
def lfC6 : String → Json → List Params :=
  fun k v => [[(k, match v with | Json.str s => s | _ => (""))]]

def rC6a : FetchRes :=
  FetchRes.mk [] [(("ids"), FieldVal.vals [Json.str ("v1"), Json.str ("v2")])]

def pC6_1 : Params := [(("ids"), ("v1"))]

def pC6_2 : Params := [(("ids"), ("v2"))]

def rC6b1 : FetchRes := FetchRes.mk pC6_1 []

def rC6b2 : FetchRes := FetchRes.mk pC6_2 []

def cC6_1 : Cache := setA [] (cacheKey apiC6a []) rC6a

def cC6_2 : Cache := setA cC6_1 (cacheKey apiC6b pC6_1) rC6b1

def cC6_3 : Cache := setA cC6_2 (cacheKey apiC6b pC6_2) rC6b2

def evC6_1 : List Event := [Event.fetchCall ("a6") [], Event.request (buildRequest apiC6a [])]

def evC6_2 : List Event := [Event.fetchCall ("b6") pC6_1, Event.request (buildRequest apiC6b pC6_1)]

def evC6_3 : List Event := [Event.fetchCall ("b6") pC6_2, Event.request (buildRequest apiC6b pC6_2)]

def gC7 : Getter := ⟨5, 5⟩

def wC7 : World := ⟨fun _ => NetOutcome.resp ⟨200, Json.obj []⟩, fun _ _ => []⟩

def accC7 : Accum := [(("e1"), FetchRes.mk [] []), (("e2"), FetchRes.mk [] [])]

/-- A transform returning a delta that overwrites one existing key and adds a
new one. -/
def fC7 : Accum → Accum := fun _ => [(("e2"), FetchRes.empty), (("e3"), FetchRes.mk [] [])]

def gC9 : Getter := ⟨1, 5⟩

/-- A network answering 200 whose extractor never matches, so every declared
output field records the `None` sentinel. -/
def wC9 : World := ⟨fun _ => NetOutcome.resp ⟨200, Json.obj []⟩, fun _ _ => []⟩

def apiC9a : API := ⟨("a9"), ("GET"), [], [(("x"), ("$.x"))], [], [], []⟩

def apiC9b : API := mkAPI ("b9")

/-- A linkage function that still returns one downstream map when handed the
`None` sentinel. -/
def lfC9 : String → Json → List Params := fun k _ => [[(k, ("none"))]]

def rC9a : FetchRes := FetchRes.mk [] [(("x"), FieldVal.scalar Json.null)]

def pC9 : Params := [(("x"), ("none"))]

def rC9b : FetchRes := FetchRes.mk pC9 []

def cC9_1 : Cache := setA [] (cacheKey apiC9a []) rC9a

def cC9_2 : Cache := setA cC9_1 (cacheKey apiC9b pC9) rC9b

def evC9_1 : List Event := [Event.fetchCall ("a9") [], Event.request (buildRequest apiC9a [])]

def evC9g : List Event := [Event.fetchCall ("b9") pC9, Event.request (buildRequest apiC9b pC9)]

def wC10 : World := ⟨fun _ => NetOutcome.resp ⟨404, Json.null⟩, fun _ _ => []⟩

def apiC10 : API := mkAPI ("u10")

def rC10 : FetchRes := FetchRes.mk [] []

def cC10 : Cache := setA [] (cacheKey apiC10 []) rC10

/-! ### Association-list lemmas -/

theorem lookupA_setA_self {κ β : Type} [DecidableEq κ] (m : List (κ × β)) (k : κ) (v : β) :
    lookupA (setA m k v) k = some v := by
  induction m with
  | nil => simp [setA, lookupA]
  | cons kv rest ih =>
    obtain ⟨k0, v0⟩ := kv
    by_cases h : k0 = k
    · simp [setA, lookupA, h]
    · simp [setA, lookupA, h, ih]

theorem lookupA_setA_ne {κ β : Type} [DecidableEq κ] (m : List (κ × β)) (k0 k : κ) (v : β)
    (h : k0 ≠ k) : lookupA (setA m k0 v) k = lookupA m k := by
  induction m with
  | nil => simp [setA, lookupA, h]
  | cons kv rest ih =>
    obtain ⟨k1, v1⟩ := kv
    by_cases h1 : k1 = k0
    · subst h1
      simp [setA, lookupA, h]
    · by_cases h2 : k1 = k
      · subst h2
        simp [setA, lookupA, h1]
      · simp [setA, lookupA, h1, h2, ih]

theorem lookupA_updateA_notin {κ β : Type} [DecidableEq κ]
    (delta : List (κ × β)) (m : List (κ × β)) (k : κ)
    (h : k ∉ delta.map Prod.fst) :
    lookupA (updateA m delta) k = lookupA m k := by
  induction delta generalizing m with
  | nil => simp [updateA]
  | cons kv rest ih =>
    simp only [List.map_cons, List.mem_cons, not_or] at h
    have step : updateA m (kv :: rest) = updateA (setA m kv.1 kv.2) rest := rfl
    rw [step, ih _ h.2, lookupA_setA_ne _ _ _ _ (fun he => h.1 he.symm)]

theorem lookupA_updateA_mem {κ β : Type} [DecidableEq κ]
    (delta : List (κ × β)) (m : List (κ × β)) (kv : κ × β)
    (hnd : (delta.map Prod.fst).Nodup) (hmem : kv ∈ delta) :
    lookupA (updateA m delta) kv.1 = some kv.2 := by
  induction delta generalizing m with
  | nil => cases hmem
  | cons hd rest ih =>
    have step : updateA m (hd :: rest) = updateA (setA m hd.1 hd.2) rest := rfl
    simp only [List.map_cons, List.nodup_cons] at hnd
    rcases List.mem_cons.mp hmem with he | hm
    · subst he
      rw [step, lookupA_updateA_notin _ _ _ hnd.1, lookupA_setA_self]
    · exact step ▸ ih _ hnd.2 hm

/-! ### Fetch and cache lemmas -/

/-- A cache hit returns the stored result and issues no request. -/
theorem fetch_hit (w : World) (api : API) (params : Params) (cache : Cache) (nreq : Nat)
    (r : FetchRes) (h : lookupA cache (cacheKey api params) = some r) :
    fetch w api params cache nreq = (Except.ok r, cache, nreq, []) := by
  unfold fetch
  rw [h]

/-- Equation: cache miss, the request raises a `ClientResponseError`. -/
theorem fetch_eq_raiseResp (w : World) (api : API) (params : Params) (cache : Cache)
    (nreq : Nat) (s : Nat)
    (hl : lookupA cache (cacheKey api params) = none)
    (hn : w.net nreq = NetOutcome.raiseResp s) :
    fetch w api params cache nreq =
      (Except.error (Exc.respError s), cache, nreq + 1, [Event.request (buildRequest api params)]) := by
  unfold fetch
  rw [hl, hn]

/-- Equation: cache miss, the request raises a non-`ClientResponseError`. -/
theorem fetch_eq_raiseOther (w : World) (api : API) (params : Params) (cache : Cache)
    (nreq : Nat)
    (hl : lookupA cache (cacheKey api params) = none)
    (hn : w.net nreq = NetOutcome.raiseOther) :
    fetch w api params cache nreq =
      (Except.error Exc.otherError, cache, nreq + 1, [Event.request (buildRequest api params)]) := by
  unfold fetch
  rw [hl, hn]

/-- Equation: cache miss, a 200 response is received and extraction runs. -/
theorem fetch_eq_200 (w : World) (api : API) (params : Params) (cache : Cache)
    (nreq : Nat) (response : Response)
    (hl : lookupA cache (cacheKey api params) = none)
    (hn : w.net nreq = NetOutcome.resp response)
    (hs : response.status = 200) :
    fetch w api params cache nreq =
      (Except.ok (FetchRes.mk params (extractOutputs w api.output_params response.body)),
       setA cache (cacheKey api params)
         (FetchRes.mk params (extractOutputs w api.output_params response.body)),
       nreq + 1, [Event.request (buildRequest api params)]) := by
  unfold fetch
  rw [hl, hn]
  simp [hs]

/-- Equation: cache miss, a non-200 response with a registered handler. -/
theorem fetch_eq_handler (w : World) (api : API) (params : Params) (cache : Cache)
    (nreq : Nat) (response : Response) (handler : Response → OutputMap)
    (hl : lookupA cache (cacheKey api params) = none)
    (hn : w.net nreq = NetOutcome.resp response)
    (hs : response.status ≠ 200)
    (hh : lookupA api.error_handlers response.status = some handler) :
    fetch w api params cache nreq =
      (Except.ok (FetchRes.mk params (handler response)),
       setA cache (cacheKey api params) (FetchRes.mk params (handler response)),
       nreq + 1, [Event.request (buildRequest api params)]) := by
  unfold fetch
  rw [hl, hn]
  simp [hs, hh]

/-- Equation: cache miss, a non-200 response without a registered handler. -/
theorem fetch_eq_nohandler (w : World) (api : API) (params : Params) (cache : Cache)
    (nreq : Nat) (response : Response)
    (hl : lookupA cache (cacheKey api params) = none)
    (hn : w.net nreq = NetOutcome.resp response)
    (hs : response.status ≠ 200)
    (hh : lookupA api.error_handlers response.status = none) :
    fetch w api params cache nreq =
      (Except.ok (FetchRes.mk params []),
       setA cache (cacheKey api params) (FetchRes.mk params []),
       nreq + 1,
       [Event.request (buildRequest api params),
        Event.logStatus (buildRequest api params).url response.status]) := by
  unfold fetch
  rw [hl, hn]
  simp [hs, hh]

/-- Every fetch that returns a result has stored it in the cache under the
call's key (it was either just stored, or already there). -/
theorem fetch_ok_cached (w : World) (api : API) (params : Params) (cache : Cache) (nreq : Nat)
    (r : FetchRes) (c : Cache) (n : Nat) (ev : List Event)
    (h : fetch w api params cache nreq = (Except.ok r, c, n, ev)) :
    lookupA c (cacheKey api params) = some r := by
  cases hl : lookupA cache (cacheKey api params) with
  | some r0 =>
    rw [fetch_hit w api params cache nreq r0 hl] at h
    cases h
    exact hl
  | none =>
    cases hn : w.net nreq with
    | raiseResp s => rw [fetch_eq_raiseResp w api params cache nreq s hl hn] at h; cases h
    | raiseOther => rw [fetch_eq_raiseOther w api params cache nreq hl hn] at h; cases h
    | resp response =>
      by_cases hs : response.status = 200
      · rw [fetch_eq_200 w api params cache nreq response hl hn hs] at h
        cases h
        exact lookupA_setA_self ..
      · cases hh : lookupA api.error_handlers response.status with
        | some handler =>
          rw [fetch_eq_handler w api params cache nreq response handler hl hn hs hh] at h
          cases h
          exact lookupA_setA_self ..
        | none =>
          rw [fetch_eq_nohandler w api params cache nreq response hl hn hs hh] at h
          cases h
          exact lookupA_setA_self ..

/-- One fetch call issues at most one network request. -/
theorem fetch_reqCount_le_one (w : World) (api : API) (params : Params) (cache : Cache)
    (nreq : Nat) :
    reqCount (fetch w api params cache nreq).2.2.2 ≤ 1 := by
  unfold fetch
  cases hl : lookupA cache (cacheKey api params) with
  | some r0 => simp [reqCount]
  | none =>
    cases hn : w.net nreq with
    | raiseResp s => simp [reqCount]
    | raiseOther => simp [reqCount]
    | resp response =>
      by_cases hs : response.status = 200
      · simp [hs, reqCount]
      · cases hh : lookupA api.error_handlers response.status with
        | some handler => simp [hs, hh, reqCount]
        | none => simp [hs, hh, reqCount]

/-- Once the cache holds a result for a key, every fetch whose key is equal
returns that result unchanged, with no request, no state change and no
events. -/
theorem fetchSeq_cached (w : World) (api : API) (ps : List Params) (p0 : Params)
    (r : FetchRes) (cache : Cache) (nreq : Nat)
    (hc : lookupA cache (cacheKey api p0) = some r)
    (hkeys : ∀ p ∈ ps, cacheKey api p = cacheKey api p0) :
    fetchSeq w api ps cache nreq = (ps.map fun _ => Except.ok r, cache, nreq, []) := by
  induction ps with
  | nil => simp [fetchSeq]
  | cons p rest ih =>
    have hk : cacheKey api p = cacheKey api p0 := hkeys p (List.mem_cons_self ..)
    have hfetch := fetch_hit w api p cache nreq r (hk ▸ hc)
    have hrest := ih fun q hq => hkeys q (List.mem_cons_of_mem _ hq)
    simp [fetchSeq, hfetch, hrest]

/-! ### Trace-counter lemmas -/

@[simp] theorem reqCount_nil : reqCount [] = 0 := rfl

@[simp] theorem reqCount_append (a b : List Event) :
    reqCount (a ++ b) = reqCount a + reqCount b := by
  simp [reqCount, List.filter_append]

@[simp] theorem reqCount_cons_fetchCall (u : String) (p : Params) (l : List Event) :
    reqCount (Event.fetchCall u p :: l) = reqCount l := by simp [reqCount]

@[simp] theorem reqCount_cons_request (r : Request) (l : List Event) :
    reqCount (Event.request r :: l) = reqCount l + 1 := by
  simp [reqCount, List.filter, Nat.add_comm]

@[simp] theorem reqCount_cons_sleep (t : Nat) (l : List Event) :
    reqCount (Event.sleep t :: l) = reqCount l := by simp [reqCount]

@[simp] theorem reqCount_cons_logStatus (u : String) (s : Nat) (l : List Event) :
    reqCount (Event.logStatus u s :: l) = reqCount l := by simp [reqCount]

@[simp] theorem reqCount_cons_logRetry (u : String) (s : Nat) (l : List Event) :
    reqCount (Event.logRetry u s :: l) = reqCount l := by simp [reqCount]

@[simp] theorem reqCount_cons_logExhausted (u : String) (l : List Event) :
    reqCount (Event.logExhausted u :: l) = reqCount l := by simp [reqCount]

@[simp] theorem reqCount_cons_linkageCall (k : String) (v : Json) (l : List Event) :
    reqCount (Event.linkageCall k v :: l) = reqCount l := by simp [reqCount]

@[simp] theorem reqCount_cons_callbackCall (a : Accum) (l : List Event) :
    reqCount (Event.callbackCall a :: l) = reqCount l := by simp [reqCount]

@[simp] theorem sleepsOf_nil : sleepsOf [] = [] := rfl

@[simp] theorem sleepsOf_append (a b : List Event) :
    sleepsOf (a ++ b) = sleepsOf a ++ sleepsOf b := by
  simp [sleepsOf]

@[simp] theorem sleepsOf_cons_fetchCall (u : String) (p : Params) (l : List Event) :
    sleepsOf (Event.fetchCall u p :: l) = sleepsOf l := by simp [sleepsOf]

@[simp] theorem sleepsOf_cons_request (r : Request) (l : List Event) :
    sleepsOf (Event.request r :: l) = sleepsOf l := by simp [sleepsOf]

@[simp] theorem sleepsOf_cons_sleep (t : Nat) (l : List Event) :
    sleepsOf (Event.sleep t :: l) = t :: sleepsOf l := by simp [sleepsOf]

@[simp] theorem sleepsOf_cons_logStatus (u : String) (s : Nat) (l : List Event) :
    sleepsOf (Event.logStatus u s :: l) = sleepsOf l := by simp [sleepsOf]

@[simp] theorem sleepsOf_cons_logRetry (u : String) (s : Nat) (l : List Event) :
    sleepsOf (Event.logRetry u s :: l) = sleepsOf l := by simp [sleepsOf]

@[simp] theorem sleepsOf_cons_logExhausted (u : String) (l : List Event) :
    sleepsOf (Event.logExhausted u :: l) = sleepsOf l := by simp [sleepsOf]

@[simp] theorem sleepsOf_cons_linkageCall (k : String) (v : Json) (l : List Event) :
    sleepsOf (Event.linkageCall k v :: l) = sleepsOf l := by simp [sleepsOf]

@[simp] theorem sleepsOf_cons_callbackCall (a : Accum) (l : List Event) :
    sleepsOf (Event.callbackCall a :: l) = sleepsOf l := by simp [sleepsOf]

@[simp] theorem callbackCount_nil : callbackCount [] = 0 := rfl

@[simp] theorem callbackCount_append (a b : List Event) :
    callbackCount (a ++ b) = callbackCount a + callbackCount b := by
  simp [callbackCount, List.filter_append]

@[simp] theorem callbackCount_cons_fetchCall (u : String) (p : Params) (l : List Event) :
    callbackCount (Event.fetchCall u p :: l) = callbackCount l := by simp [callbackCount]

@[simp] theorem callbackCount_cons_request (r : Request) (l : List Event) :
    callbackCount (Event.request r :: l) = callbackCount l := by simp [callbackCount]

@[simp] theorem callbackCount_cons_sleep (t : Nat) (l : List Event) :
    callbackCount (Event.sleep t :: l) = callbackCount l := by simp [callbackCount]

@[simp] theorem callbackCount_cons_logStatus (u : String) (s : Nat) (l : List Event) :
    callbackCount (Event.logStatus u s :: l) = callbackCount l := by simp [callbackCount]

@[simp] theorem callbackCount_cons_logRetry (u : String) (s : Nat) (l : List Event) :
    callbackCount (Event.logRetry u s :: l) = callbackCount l := by simp [callbackCount]

@[simp] theorem callbackCount_cons_logExhausted (u : String) (l : List Event) :
    callbackCount (Event.logExhausted u :: l) = callbackCount l := by simp [callbackCount]

@[simp] theorem callbackCount_cons_linkageCall (k : String) (v : Json) (l : List Event) :
    callbackCount (Event.linkageCall k v :: l) = callbackCount l := by simp [callbackCount]

@[simp] theorem callbackCount_cons_callbackCall (a : Accum) (l : List Event) :
    callbackCount (Event.callbackCall a :: l) = callbackCount l + 1 := by
  simp [callbackCount, List.filter, Nat.add_comm]

@[simp] theorem fetchCallCount_nil (u : String) : fetchCallCount u [] = 0 := rfl

@[simp] theorem fetchCallCount_append (u : String) (a b : List Event) :
    fetchCallCount u (a ++ b) = fetchCallCount u a + fetchCallCount u b := by
  simp [fetchCallCount, List.filter_append]

@[simp] theorem fetchCallCount_cons_fetchCall (u b : String) (p : Params) (l : List Event) :
    fetchCallCount u (Event.fetchCall b p :: l) =
      (if b = u then 1 else 0) + fetchCallCount u l := by
  by_cases h : b = u
  · simp [fetchCallCount, List.filter, h, Nat.add_comm]
  · simp [fetchCallCount, List.filter, h]

@[simp] theorem fetchCallCount_cons_request (u : String) (r : Request) (l : List Event) :
    fetchCallCount u (Event.request r :: l) = fetchCallCount u l := by simp [fetchCallCount]

@[simp] theorem fetchCallCount_cons_sleep (u : String) (t : Nat) (l : List Event) :
    fetchCallCount u (Event.sleep t :: l) = fetchCallCount u l := by simp [fetchCallCount]

@[simp] theorem fetchCallCount_cons_logStatus (u v : String) (s : Nat) (l : List Event) :
    fetchCallCount u (Event.logStatus v s :: l) = fetchCallCount u l := by simp [fetchCallCount]

@[simp] theorem fetchCallCount_cons_logRetry (u v : String) (s : Nat) (l : List Event) :
    fetchCallCount u (Event.logRetry v s :: l) = fetchCallCount u l := by simp [fetchCallCount]

@[simp] theorem fetchCallCount_cons_logExhausted (u v : String) (l : List Event) :
    fetchCallCount u (Event.logExhausted v :: l) = fetchCallCount u l := by simp [fetchCallCount]

@[simp] theorem fetchCallCount_cons_linkageCall (u k : String) (v : Json) (l : List Event) :
    fetchCallCount u (Event.linkageCall k v :: l) = fetchCallCount u l := by simp [fetchCallCount]

@[simp] theorem fetchCallCount_cons_callbackCall (u : String) (a : Accum) (l : List Event) :
    fetchCallCount u (Event.callbackCall a :: l) = fetchCallCount u l := by simp [fetchCallCount]

/-! ### Event-emission lemmas for fetch and the retry loop -/

/-- A plain fetch emits no callback, no sleep and no `fetchCall` entry. -/
theorem fetch_emits (w : World) (api : API) (params : Params) (cache : Cache) (nreq : Nat) :
    callbackCount (fetch w api params cache nreq).2.2.2 = 0 ∧
    sleepsOf (fetch w api params cache nreq).2.2.2 = [] ∧
    ∀ u, fetchCallCount u (fetch w api params cache nreq).2.2.2 = 0 := by
  unfold fetch
  cases hl : lookupA cache (cacheKey api params) with
  | some r0 => simp
  | none =>
    cases hn : w.net nreq with
    | raiseResp s => simp
    | raiseOther => simp
    | resp response =>
      by_cases hs : response.status = 200
      · simp [hs]
      · cases hh : lookupA api.error_handlers response.status with
        | some handler => simp [hs, hh]
        | none => simp [hs, hh]

/-- The retry loop emits no callback and no `fetchCall` entry. -/
theorem fetchRetryGo_emits (w : World) (api : API) (params : Params) :
    ∀ fuel retry cache nreq,
    callbackCount (fetchRetryGo w api params fuel retry cache nreq).2.2.2 = 0 ∧
    ∀ u, fetchCallCount u (fetchRetryGo w api params fuel retry cache nreq).2.2.2 = 0 := by
  intro fuel
  induction fuel with
  | zero =>
    intro retry cache nreq
    simp [fetchRetryGo]
  | succ fuel ih =>
    intro retry cache nreq
    obtain ⟨hcb, hsl, hfc⟩ := fetch_emits w api params cache nreq
    unfold fetchRetryGo
    rcases hf : fetch w api params cache nreq with ⟨res, c, n, ev⟩
    rw [hf] at hcb hfc
    cases res with
    | ok r => simpa using ⟨hcb, hfc⟩
    | error e =>
      cases e with
      | keyError => simpa using ⟨hcb, hfc⟩
      | otherError => simpa using ⟨hcb, hfc⟩
      | respError s =>
        obtain ⟨ih1, ih2⟩ := ih (retry + 1) c n
        constructor
        · simpa [hcb] using ih1
        · intro u
          simpa [hfc u] using ih2 u

/-- `fetch_with_retry` emits exactly one `fetchCall` entry (for its own
endpoint) and never invokes the callback. -/
theorem fetch_with_retry_emits (g : Getter) (w : World) (api : API) (params : Params)
    (cache : Cache) (nreq : Nat) :
    callbackCount (fetch_with_retry g w api params cache nreq).2.2.2 = 0 ∧
    ∀ u, fetchCallCount u (fetch_with_retry g w api params cache nreq).2.2.2 =
      if api.base_url = u then 1 else 0 := by
  obtain ⟨h1, h2⟩ := fetchRetryGo_emits w api params g.max_retries 0 cache nreq
  unfold fetch_with_retry
  constructor
  · simpa using h1
  · intro u
    by_cases h : api.base_url = u <;> simp [h, h2 u]

/-- If every attempt raises a `ClientResponseError`, the retry loop runs all
its iterations, sleeping `2 ^ attempt` after each failed attempt, leaves the
cache unchanged, and finally returns the bare empty dict. -/
theorem fetchRetryGo_all_fail (w : World) (api : API) (params : Params) (S : Nat → Nat) :
    ∀ fuel retry cache nreq,
    lookupA cache (cacheKey api params) = none →
    (∀ i, i < fuel → w.net (nreq + i) = NetOutcome.raiseResp (S (retry + i))) →
    ∃ ev, fetchRetryGo w api params fuel retry cache nreq =
        (Except.ok FetchRes.empty, cache, nreq + fuel, ev)
      ∧ sleepsOf ev = (List.range fuel).map (fun i => 2 ^ (retry + i))
      ∧ reqCount ev = fuel := by
  intro fuel
  induction fuel with
  | zero =>
    intro retry cache nreq hl _
    exact ⟨[Event.logExhausted api.base_url], by simp [fetchRetryGo], by simp, by simp⟩
  | succ fuel ih =>
    intro retry cache nreq hl hnet
    have h0 : w.net nreq = NetOutcome.raiseResp (S retry) := by
      have := hnet 0 (Nat.succ_pos fuel)
      simpa using this
    have hshift : ∀ i, i < fuel → w.net (nreq + 1 + i) = NetOutcome.raiseResp (S (retry + 1 + i)) := by
      intro i hi
      have := hnet (i + 1) (by omega)
      have e1 : nreq + 1 + i = nreq + (i + 1) := by omega
      have e2 : retry + 1 + i = retry + (i + 1) := by omega
      rw [e1, e2]
      exact this
    obtain ⟨ev2, hgo, hsl, hrc⟩ := ih (retry + 1) cache (nreq + 1) hl hshift
    refine ⟨Event.request (buildRequest api params) ::
            Event.logRetry api.base_url (S retry) :: Event.sleep (2 ^ retry) :: ev2, ?_, ?_, ?_⟩
    · unfold fetchRetryGo
      rw [fetch_eq_raiseResp w api params cache nreq (S retry) hl h0]
      have e3 : nreq + 1 + fuel = nreq + (fuel + 1) := by omega
      simp [hgo, e3]
    · rw [List.range_succ_eq_map]
      simp only [sleepsOf_cons_request, sleepsOf_cons_logRetry, sleepsOf_cons_sleep,
        List.map_cons, List.map_map, hsl]
      congr 1
      apply List.map_congr_left
      intro i _
      simp only [Function.comp_apply]
      congr 1
      omega
    · simp [hrc, Nat.add_comm]

/-- A successful gather of downstream fetches performs exactly one
`fetch_with_retry` per parameter map, returns one response per map, and
invokes no callback itself. -/
theorem gatherFetch_ok_counts (g : Getter) (w : World) (api : API) :
    ∀ ps cache nreq rs c2 n2 ev,
    gatherFetch g w api ps cache nreq = (Except.ok rs, c2, n2, ev) →
    rs.length = ps.length ∧ fetchCallCount api.base_url ev = ps.length ∧
    callbackCount ev = 0 := by
  intro ps
  induction ps with
  | nil =>
    intro cache nreq rs c2 n2 ev h
    unfold gatherFetch at h
    obtain ⟨h1, -, -, h4⟩ := Prod.mk.injEq .. ▸ h
    cases h
    simp
  | cons p rest ih =>
    intro cache nreq rs c2 n2 ev h
    unfold gatherFetch at h
    rcases hf : fetch_with_retry g w api p cache nreq with ⟨res, c, n, ev1⟩
    cases res with
    | error e =>
      simp only [hf] at h
      simp at h
    | ok r =>
      rcases hg : gatherFetch g w api rest c n with ⟨res2, cc2, nn2, ev2⟩
      cases res2 with
      | error e =>
        simp only [hf, hg] at h
        simp at h
      | ok rs2 =>
        simp only [hf, hg, Prod.mk.injEq, Except.ok.injEq] at h
        obtain ⟨h1, h2, h3, h4⟩ := h
        subst h1
        subst h2
        subst h3
        subst h4
        obtain ⟨ih1, ih2, ih3⟩ := ih c n rs2 cc2 nn2 ev2 hg
        obtain ⟨hcb, hfcAll⟩ := fetch_with_retry_emits g w api p cache nreq
        rw [hf] at hcb hfcAll
        have hfc := hfcAll api.base_url
        simp only [if_pos rfl] at hfc
        refine ⟨by simp [ih1], ?_, ?_⟩
        · simp only [fetchCallCount_append, ih2]
          simp at hfc
          simp [hfc]
          omega
        · simp only [callbackCount_append, ih3]
          simp at hcb
          simp [hcb]

/-! ### Claim theorems -/

/-- C1: the first half of the claim holds — after every retry attempt fails
with a retryable `ClientResponseError`, `fetch_with_retry` returns the bare
empty dict without raising — but the second half fails on the code: the
linkage step then evaluates `start_response['output']` on that empty dict,
which raises `KeyError`, so `run_flow` aborts instead of continuing with the
branch skipped.  Evaluated on a one-linkage flow whose start-API attempts all
raise `ClientResponseError(503)` under `max_retries = 1`: the run ends in the
`KeyError` and no callback is ever invoked. -/
theorem C1_exhausted_retries_raise_key_error :
    (fetch_with_retry ⟨1, 5⟩ wC1 apiC1a [] [] 0).1 = Except.ok FetchRes.empty ∧
    (run_flow ⟨1, 5⟩ wC1 [FlowStep.apiLinkage apiC1a apiC1b lfC1] []).1 =
      Except.error Exc.keyError ∧
    callbackCount (run_flow ⟨1, 5⟩ wC1 [FlowStep.apiLinkage apiC1a apiC1b lfC1] []).2.2.2 = 0 :=
  ⟨rfl, rfl, rfl⟩

/-- C2: once a fetch with some parameter map has completed and stored its
`FetchResult`, every later `fetch` call whose cache key is identical — same
base URL and same parameter set, regardless of parameter order — returns that
identical stored `FetchResult` with no state change and no further network
request; the whole sequence issues at most one request (the first call's). -/
theorem C2_identical_key_single_request (w : World) (api : API) (p0 : Params)
    (ps : List Params) (cache : Cache) (nreq : Nat) (r : FetchRes) (c1 : Cache)
    (n1 : Nat) (ev1 : List Event)
    (hfirst : fetch w api p0 cache nreq = (Except.ok r, c1, n1, ev1))
    (hkeys : ∀ p ∈ ps, cacheKey api p = cacheKey api p0) :
    fetchSeq w api ps c1 n1 = (ps.map fun _ => Except.ok r, c1, n1, []) ∧
    reqCount ev1 ≤ 1 := by
  have hc := fetch_ok_cached w api p0 cache nreq r c1 n1 ev1 hfirst
  refine ⟨fetchSeq_cached w api ps p0 r c1 n1 hc hkeys, ?_⟩
  have h := fetch_reqCount_le_one w api p0 cache nreq
  rw [hfirst] at h
  exact h

/-- Witness for C2 at a concrete input, with the repeated parameter map given
in the opposite insertion order. -/
theorem C2_identical_key_single_request_witness :
    fetchSeq wC2 apiC2 [pC2b, pC2a] cC2 1 = ([Except.ok rC2, Except.ok rC2], cC2, 1, []) ∧
    reqCount evC2 ≤ 1 := by
  have h := C2_identical_key_single_request wC2 apiC2 pC2a [pC2b, pC2a] [] 0 rC2 cC2 1 evC2
    rfl ?_
  · exact ⟨h.1, h.2⟩
  · intro p hp
    simp only [List.mem_cons, List.not_mem_nil, or_false] at hp
    rcases hp with h1 | h1 <;> subst h1 <;> decide

/-- C7: a `PythonLinkage` step applies its function to the current
accumulator, merges the returned delta via `results.update` (keys in the
delta overwrite, keys not in the delta are untouched) and invokes the
callback exactly once, with the updated accumulator. -/
theorem C7_transform_step_merge (g : Getter) (w : World) (f : Accum → Accum)
    (params : Params) (results : Accum) (cache : Cache) (nreq : Nat) :
    process_linkage g w (FlowStep.pythonLinkage f) params results cache nreq =
      (Except.ok (updateA results (f results)), cache, nreq,
       [Event.callbackCall (updateA results (f results))]) ∧
    (∀ k, k ∉ (f results).map Prod.fst →
      lookupA (updateA results (f results)) k = lookupA results k) ∧
    (((f results).map Prod.fst).Nodup →
      ∀ kv ∈ f results, lookupA (updateA results (f results)) kv.1 = some kv.2) := by
  refine ⟨rfl, ?_, ?_⟩
  · intro k hk
    exact lookupA_updateA_notin _ _ _ hk
  · intro hnd kv hkv
    exact lookupA_updateA_mem _ _ _ hnd hkv

/-- Witness for C7 at a concrete accumulator and transform. -/
theorem C7_transform_step_merge_witness :
    process_linkage gC7 wC7 (FlowStep.pythonLinkage fC7) [] accC7 [] 0 =
      (Except.ok [(("e1"), FetchRes.mk [] []), (("e2"), FetchRes.empty),
                  (("e3"), FetchRes.mk [] [])], [], 0,
       [Event.callbackCall [(("e1"), FetchRes.mk [] []), (("e2"), FetchRes.empty),
                            (("e3"), FetchRes.mk [] [])]]) ∧
    lookupA (updateA accC7 (fC7 accC7)) ("e1") = some (FetchRes.mk [] []) ∧
    lookupA (updateA accC7 (fC7 accC7)) ("e2") = some FetchRes.empty := by
  have h := C7_transform_step_merge gC7 wC7 fC7 [] accC7 [] 0
  refine ⟨h.1, ?_, ?_⟩
  · exact h.2.1 ("e1") (by decide)
  · exact h.2.2 (by decide) ((("e2"), FetchRes.empty)) (List.mem_cons_self ..)

/-- C8: with `max_retries = 0` the loop body of `fetch_with_retry` never
runs: for every network, extractor, endpoint, parameter map and prior state,
the call returns the bare empty dict at once — the cache (even one already
holding this key) is neither consulted nor changed, no request is issued, and
no handler can run, as witnessed by the returned state being untouched and
the trace holding only the entry marker and the exhaustion log line. -/
theorem C8_zero_retries_no_attempt (workers : Nat) (w : World) (api : API)
    (params : Params) (cache : Cache) (nreq : Nat) :
    fetch_with_retry ⟨0, workers⟩ w api params cache nreq =
      (Except.ok FetchRes.empty, cache, nreq,
       [Event.fetchCall api.base_url params, Event.logExhausted api.base_url]) :=
  rfl

/-- C10: every fetch that completes — whatever the HTTP status, including the
handler path and the unregistered-status path — has its `FetchResult` stored
in the cache under the call's key, and any later fetch with an equal key
returns that stored result with no request issued, no state change and no
events. -/
theorem C10_every_status_cached (w : World) (api : API) (params : Params)
    (cache : Cache) (nreq : Nat) (r : FetchRes) (c : Cache) (n : Nat) (ev : List Event)
    (h : fetch w api params cache nreq = (Except.ok r, c, n, ev)) :
    lookupA c (cacheKey api params) = some r ∧
    ∀ p2, cacheKey api p2 = cacheKey api params →
      fetch w api p2 c n = (Except.ok r, c, n, []) := by
  have hc := fetch_ok_cached w api params cache nreq r c n ev h
  exact ⟨hc, fun p2 hk => fetch_hit w api p2 c n r (hk ▸ hc)⟩

/-- Witness for C10 on a 404 response with no registered handler: the
empty-output result is cached and served on the second call. -/
theorem C10_every_status_cached_witness :
    lookupA cC10 (cacheKey apiC10 []) = some rC10 ∧
    fetch wC10 apiC10 [] cC10 1 = (Except.ok rC10, cC10, 1, []) := by
  have h := C10_every_status_cached wC10 apiC10 [] [] 0 rC10 cC10 1
    [Event.request (buildRequest apiC10 []),
     Event.logStatus (buildRequest apiC10 []).url 404] rfl
  exact ⟨h.1, h.2 [] rfl⟩

/-- C3 counterexample: a connection-reset-style transient transport failure —
an exception that is not `aiohttp.ClientResponseError` — is not retried at
all, contradicting the claim that every transient transport failure is
retried up to `maxRetries` with exponential backoff: with `max_retries = 3`
the very first such failure propagates after a single attempt (the request
counter ends at 1) with no backoff sleep. -/
theorem C3_counterexample_reset_not_retried :
    (fetch_with_retry ⟨3, 5⟩ wC3other apiC3 [] [] 0).1 = Except.error Exc.otherError ∧
    sleepsOf (fetch_with_retry ⟨3, 5⟩ wC3other apiC3 [] [] 0).2.2.2 = [] ∧
    reqCount (fetch_with_retry ⟨3, 5⟩ wC3other apiC3 [] [] 0).2.2.2 = 1 ∧
    (fetch_with_retry ⟨3, 5⟩ wC3other apiC3 [] [] 0).2.2.1 = 1 :=
  ⟨rfl, rfl, rfl, rfl⟩

/-- C3 amended: only a fetch attempt failing with
`aiohttp.ClientResponseError` (a protocol-level error carrying a status) is
retried, up to `maxRetries` attempts with backoff `2 ^ attempt` between
attempts (attempt counted from 0); any other transport failure, such as a
connection reset, is not caught and propagates immediately after one attempt;
and an HTTP error status on a successfully received response is never retried
— it is resolved in a single attempt with no backoff. -/
theorem C3_amended_retry_policy (w1 w2 w3 : World) (api : API) (params : Params)
    (cache : Cache) (nreq : Nat) (g : Getter) (S : Nat → Nat) (resp3 : Response)
    (hl : lookupA cache (cacheKey api params) = none)
    (hmr : 0 < g.max_retries)
    (h1 : ∀ i, i < g.max_retries → w1.net (nreq + i) = NetOutcome.raiseResp (S i))
    (h2 : w2.net nreq = NetOutcome.raiseOther)
    (h3 : w3.net nreq = NetOutcome.resp resp3)
    (h3s : resp3.status ≠ 200) :
    (∃ ev, fetch_with_retry g w1 api params cache nreq =
        (Except.ok FetchRes.empty, cache, nreq + g.max_retries, ev) ∧
      sleepsOf ev = (List.range g.max_retries).map (fun i => 2 ^ i) ∧
      reqCount ev = g.max_retries) ∧
    (∃ ev, fetch_with_retry g w2 api params cache nreq =
        (Except.error Exc.otherError, cache, nreq + 1, ev) ∧ sleepsOf ev = []) ∧
    (∃ r ev, fetch_with_retry g w3 api params cache nreq =
        (Except.ok r, setA cache (cacheKey api params) r, nreq + 1, ev) ∧
      sleepsOf ev = [] ∧ reqCount ev = 1) := by
  obtain ⟨m, hm⟩ : ∃ m, g.max_retries = m + 1 := ⟨g.max_retries - 1, by omega⟩
  refine ⟨?_, ?_, ?_⟩
  · have h1' : ∀ i, i < g.max_retries →
        w1.net (nreq + i) = NetOutcome.raiseResp (S (0 + i)) := by
      intro i hi
      simpa using h1 i hi
    obtain ⟨ev, hgo, hsl, hrc⟩ :=
      fetchRetryGo_all_fail w1 api params S g.max_retries 0 cache nreq hl h1'
    refine ⟨Event.fetchCall api.base_url params :: ev, ?_, ?_, by simpa using hrc⟩
    · unfold fetch_with_retry
      simp [hgo]
    · simp only [sleepsOf_cons_fetchCall, hsl]
      apply List.map_congr_left
      intro i _
      simp
  · refine ⟨[Event.fetchCall api.base_url params,
             Event.request (buildRequest api params)], ?_, by simp⟩
    unfold fetch_with_retry
    rw [hm]
    unfold fetchRetryGo
    rw [fetch_eq_raiseOther w2 api params cache nreq hl h2]
  · cases hh : lookupA api.error_handlers resp3.status with
    | some handler =>
      refine ⟨FetchRes.mk params (handler resp3),
        [Event.fetchCall api.base_url params, Event.request (buildRequest api params)],
        ?_, by simp, by simp⟩
      unfold fetch_with_retry
      rw [hm]
      unfold fetchRetryGo
      rw [fetch_eq_handler w3 api params cache nreq resp3 handler hl h3 h3s hh]
    | none =>
      refine ⟨FetchRes.mk params [],
        [Event.fetchCall api.base_url params, Event.request (buildRequest api params),
         Event.logStatus (buildRequest api params).url resp3.status],
        ?_, by simp, by simp⟩
      unfold fetch_with_retry
      rw [hm]
      unfold fetchRetryGo
      rw [fetch_eq_nohandler w3 api params cache nreq resp3 hl h3 h3s hh]

/-- Witness for the amended C3 at concrete inputs: two attempts (sleeping
1 then 2 time units) before the empty dict on persistent
`ClientResponseError`; immediate propagation of a connection reset; a single
unretried attempt for a received 404. -/
theorem C3_amended_retry_policy_witness :
    (∃ ev, fetch_with_retry ⟨2, 5⟩ wC3resp apiC3 [] [] 0 =
        (Except.ok FetchRes.empty, [], 0 + 2, ev) ∧
      sleepsOf ev = (List.range 2).map (fun i => 2 ^ i) ∧ reqCount ev = 2) ∧
    (∃ ev, fetch_with_retry ⟨2, 5⟩ wC3other apiC3 [] [] 0 =
        (Except.error Exc.otherError, [], 0 + 1, ev) ∧ sleepsOf ev = []) ∧
    (∃ r ev, fetch_with_retry ⟨2, 5⟩ wC3nf apiC3 [] [] 0 =
        (Except.ok r, setA [] (cacheKey apiC3 []) r, 0 + 1, ev) ∧
      sleepsOf ev = [] ∧ reqCount ev = 1) :=
  C3_amended_retry_policy wC3resp wC3other wC3nf apiC3 [] [] 0 ⟨2, 5⟩ (fun _ => 500)
    ⟨404, Json.null⟩ rfl (by decide) (fun _ _ => rfl) rfl rfl (by decide)

/-- C4: on a cache miss answered by a 200 response, the fetch succeeds with
`output = extractOutputs ...`, which holds a binding for every declared
output field, visited in declaration order: a field whose path matches the
non-empty list `v :: vs` of values (the extractor's matches, in document
order) is bound to exactly that list, and a field with zero matches is bound
to the present-key `None` sentinel (the source's one fixed choice). -/
theorem C4_extraction_matches (w : World) (api : API) (params : Params)
    (cache : Cache) (nreq : Nat) (response : Response)
    (hl : lookupA cache (cacheKey api params) = none)
    (hn : w.net nreq = NetOutcome.resp response)
    (hs : response.status = 200) :
    (fetch w api params cache nreq).1 =
      Except.ok (FetchRes.mk params (extractOutputs w api.output_params response.body)) ∧
    ∀ p ∈ api.output_params,
      (w.find p.2 response.body = [] →
        (p.1, FieldVal.scalar Json.null) ∈ extractOutputs w api.output_params response.body) ∧
      (∀ v vs, w.find p.2 response.body = v :: vs →
        (p.1, FieldVal.vals (v :: vs)) ∈ extractOutputs w api.output_params response.body) := by
  constructor
  · rw [fetch_eq_200 w api params cache nreq response hl hn hs]
  · intro p hp
    constructor
    · intro hf
      unfold extractOutputs
      exact List.mem_map.mpr ⟨p, hp, by rw [hf]⟩
    · intro v vs hf
      unfold extractOutputs
      exact List.mem_map.mpr ⟨p, hp, by rw [hf]⟩

/-- Witness for C4: one field matching two values in document order, one
field matching nothing and bound to the `None` sentinel. -/
theorem C4_extraction_matches_witness :
    (fetch wC4 apiC4 [] [] 0).1 =
      Except.ok (FetchRes.mk []
        [(("t"), FieldVal.vals [Json.str ("x"), Json.str ("y")]),
         (("m"), FieldVal.scalar Json.null)]) ∧
    (("t"), FieldVal.vals [Json.str ("x"), Json.str ("y")]) ∈
      extractOutputs wC4 apiC4.output_params (Json.obj []) ∧
    (("m"), FieldVal.scalar Json.null) ∈
      extractOutputs wC4 apiC4.output_params (Json.obj []) := by
  have h := C4_extraction_matches wC4 apiC4 [] [] 0 ⟨200, Json.obj []⟩ rfl rfl rfl
  refine ⟨h.1, ?_, ?_⟩
  · exact (h.2 ((("t"), ("$.t"))) (List.mem_cons_self ..)).2
      (Json.str ("x")) [Json.str ("y")] rfl
  · exact (h.2 ((("m"), ("$.m")))
      (List.mem_cons_of_mem _ (List.mem_cons_self ..))).1 rfl

/-- C5: for a received non-200 response, a handler registered for that status
produces the whole output map verbatim — extraction never runs, even with
declared output fields — and with no registered handler the output map is
empty and the event is logged; in both cases the fetch returns normally (no
exception) and the result is cached. -/
theorem C5_non200_dispatch (w : World) (api : API) (params : Params)
    (cache : Cache) (nreq : Nat) (response : Response)
    (hl : lookupA cache (cacheKey api params) = none)
    (hn : w.net nreq = NetOutcome.resp response)
    (hs : response.status ≠ 200) :
    (∀ handler, lookupA api.error_handlers response.status = some handler →
      fetch w api params cache nreq =
        (Except.ok (FetchRes.mk params (handler response)),
         setA cache (cacheKey api params) (FetchRes.mk params (handler response)),
         nreq + 1, [Event.request (buildRequest api params)])) ∧
    (lookupA api.error_handlers response.status = none →
      fetch w api params cache nreq =
        (Except.ok (FetchRes.mk params []),
         setA cache (cacheKey api params) (FetchRes.mk params []),
         nreq + 1,
         [Event.request (buildRequest api params),
          Event.logStatus (buildRequest api params).url response.status])) :=
  ⟨fun handler hh => fetch_eq_handler w api params cache nreq response handler hl hn hs hh,
   fun hh => fetch_eq_nohandler w api params cache nreq response hl hn hs hh⟩

/-- Witness for C5 on a 404: an endpoint with a registered 404 handler (and a
declared output field, ignored) gets the handler's synthetic map verbatim; an
endpoint without one gets the empty output map and the log line. -/
theorem C5_non200_dispatch_witness :
    fetch wC5 apiC5h [] [] 0 =
      (Except.ok (FetchRes.mk [] [(("err"), FieldVal.scalar (Json.num 404))]),
       setA [] (cacheKey apiC5h []) (FetchRes.mk [] [(("err"), FieldVal.scalar (Json.num 404))]),
       1, [Event.request (buildRequest apiC5h [])]) ∧
    fetch wC5 apiC5n [] [] 0 =
      (Except.ok (FetchRes.mk [] []),
       setA [] (cacheKey apiC5n []) (FetchRes.mk [] []),
       1, [Event.request (buildRequest apiC5n []),
           Event.logStatus (buildRequest apiC5n []).url 404]) :=
  ⟨(C5_non200_dispatch wC5 apiC5h [] [] 0 ⟨404, Json.null⟩ rfl rfl (by decide)).1
      handlerC5 rfl,
   (C5_non200_dispatch wC5 apiC5n [] [] 0 ⟨404, Json.null⟩ rfl rfl (by decide)).2 rfl⟩

/-- C9: a declared output field recorded as the `None` sentinel still drives
one fan-out wave: the linkage step invokes the linkage function on the
singleton dict binding the field name to `None` (the `linkageCall key
Json.null` event), and every parameter map the function returns triggers one
downstream fetch of the end API (one `fetchCall` per returned map), whose
responses are delivered into the accumulator. -/
theorem C9_none_sentinel_drives_fanout (g : Getter) (w : World) (A B : API)
    (lf : String → Json → List Params) (params inp : Params) (results : Accum)
    (cache : Cache) (nreq : Nat) (key : String) (c1 : Cache) (n1 : Nat)
    (ev1 : List Event) (rs : List FetchRes) (c2 : Cache) (n2 : Nat) (evg : List Event)
    (hstart : fetch_with_retry g w A params cache nreq =
      (Except.ok (FetchRes.mk inp [(key, FieldVal.scalar Json.null)]), c1, n1, ev1))
    (hgather : gatherFetch g w B (lf key Json.null) c1 n1 = (Except.ok rs, c2, n2, evg)) :
    process_linkage g w (FlowStep.apiLinkage A B lf) params results cache nreq =
      (Except.ok (deliverResponses B.base_url rs
          (setA results A.base_url (FetchRes.mk inp [(key, FieldVal.scalar Json.null)]))).1,
       c2, n2,
       ev1 ++ Event.linkageCall key Json.null ::
         (evg ++ (deliverResponses B.base_url rs
            (setA results A.base_url (FetchRes.mk inp [(key, FieldVal.scalar Json.null)]))).2)) ∧
    fetchCallCount B.base_url evg = (lf key Json.null).length ∧
    rs.length = (lf key Json.null).length := by
  obtain ⟨hlen, hfc, -⟩ :=
    gatherFetch_ok_counts g w B (lf key Json.null) c1 n1 rs c2 n2 evg hgather
  refine ⟨?_, hfc, hlen⟩
  unfold process_linkage
  simp only [hstart, FetchRes.getOutput, processFields, FieldVal.toList, processValues,
    hgather, List.append_nil, List.cons_append]

/-- Witness for C9: the start field matches nothing (so records `None`), the
linkage function still returns one downstream map, and the end API is fetched
once with it. -/
theorem C9_none_sentinel_drives_fanout_witness :
    process_linkage gC9 wC9 (FlowStep.apiLinkage apiC9a apiC9b lfC9) [] [] [] 0 =
      (Except.ok (deliverResponses ("b9") [rC9b] (setA [] ("a9") rC9a)).1,
       cC9_2, 2,
       evC9_1 ++ Event.linkageCall ("x") Json.null ::
         (evC9g ++ (deliverResponses ("b9") [rC9b] (setA [] ("a9") rC9a)).2)) ∧
    fetchCallCount ("b9") evC9g = (lfC9 ("x") Json.null).length ∧
    [rC9b].length = (lfC9 ("x") Json.null).length :=
  C9_none_sentinel_drives_fanout gC9 wC9 apiC9a apiC9b lfC9 [] [] [] [] 0 ("x")
    cC9_1 1 evC9_1 [rC9b] cC9_2 2 evC9g rfl rfl

/-- C6: a linkage step whose start API produced the single output field
`key ↦ [v1, v2]` and whose linkage function returns one parameter map per
input invokes the linkage function once per value on the singleton dict
(`linkageCall key v1` then `linkageCall key v2`), fetches the end API exactly
twice, and invokes the callback exactly twice, each invocation immediately
after the corresponding end-API result is written into the accumulator. -/
theorem C6_fanout_two_values (g : Getter) (w : World) (A B : API)
    (lf : String → Json → List Params) (params inp : Params) (results : Accum)
    (cache : Cache) (nreq : Nat) (key : String) (v1 v2 : Json) (p1 p2 : Params)
    (r1 r2 : FetchRes) (c1 c2 c3 : Cache) (n1 n2 n3 : Nat)
    (ev1 ev2 ev3 : List Event)
    (hstart : fetch_with_retry g w A params cache nreq =
      (Except.ok (FetchRes.mk inp [(key, FieldVal.vals [v1, v2])]), c1, n1, ev1))
    (hlf1 : lf key v1 = [p1])
    (hlf2 : lf key v2 = [p2])
    (he1 : fetch_with_retry g w B p1 c1 n1 = (Except.ok r1, c2, n2, ev2))
    (he2 : fetch_with_retry g w B p2 c2 n2 = (Except.ok r2, c3, n3, ev3))
    (hne : A.base_url ≠ B.base_url) :
    process_linkage g w (FlowStep.apiLinkage A B lf) params results cache nreq =
      (Except.ok (setA (setA (setA results A.base_url
            (FetchRes.mk inp [(key, FieldVal.vals [v1, v2])])) B.base_url r1) B.base_url r2),
       c3, n3,
       ev1 ++ Event.linkageCall key v1 :: ev2 ++
         Event.callbackCall (setA (setA results A.base_url
            (FetchRes.mk inp [(key, FieldVal.vals [v1, v2])])) B.base_url r1) ::
         Event.linkageCall key v2 :: ev3 ++
         [Event.callbackCall (setA (setA (setA results A.base_url
            (FetchRes.mk inp [(key, FieldVal.vals [v1, v2])])) B.base_url r1) B.base_url r2)]) ∧
    callbackCount (process_linkage g w (FlowStep.apiLinkage A B lf) params results cache nreq).2.2.2 = 2 ∧
    fetchCallCount B.base_url
      (process_linkage g w (FlowStep.apiLinkage A B lf) params results cache nreq).2.2.2 = 2 := by
  have heq : process_linkage g w (FlowStep.apiLinkage A B lf) params results cache nreq =
      (Except.ok (setA (setA (setA results A.base_url
            (FetchRes.mk inp [(key, FieldVal.vals [v1, v2])])) B.base_url r1) B.base_url r2),
       c3, n3,
       ev1 ++ Event.linkageCall key v1 :: ev2 ++
         Event.callbackCall (setA (setA results A.base_url
            (FetchRes.mk inp [(key, FieldVal.vals [v1, v2])])) B.base_url r1) ::
         Event.linkageCall key v2 :: ev3 ++
         [Event.callbackCall (setA (setA (setA results A.base_url
            (FetchRes.mk inp [(key, FieldVal.vals [v1, v2])])) B.base_url r1) B.base_url r2)]) := by
    unfold process_linkage
    simp only [hstart, FetchRes.getOutput, processFields, FieldVal.toList, processValues,
      gatherFetch, hlf1, hlf2, he1, he2, deliverResponses, List.append_nil, List.nil_append,
      List.cons_append, List.append_assoc]
  obtain ⟨hcb1, hfc1All⟩ := fetch_with_retry_emits g w A params cache nreq
  obtain ⟨hcb2, hfc2All⟩ := fetch_with_retry_emits g w B p1 c1 n1
  obtain ⟨hcb3, hfc3All⟩ := fetch_with_retry_emits g w B p2 c2 n2
  rw [hstart] at hcb1 hfc1All
  rw [he1] at hcb2 hfc2All
  rw [he2] at hcb3 hfc3All
  simp only at hcb1 hcb2 hcb3
  have hfc1 := hfc1All B.base_url
  have hfc2 := hfc2All B.base_url
  have hfc3 := hfc3All B.base_url
  simp only [if_neg hne, if_pos rfl] at hfc1 hfc2 hfc3
  refine ⟨heq, ?_, ?_⟩
  · rw [heq]
    simp [hcb1, hcb2, hcb3]
  · rw [heq]
    simp at hfc1 hfc2 hfc3
    simp [hfc1, hfc2, hfc3]

/-- Witness for C6: the start field yields two values, the linkage wraps each
in one parameter map, and the run shows exactly two end-API fetches and two
callback invocations. -/
theorem C6_fanout_two_values_witness :
    callbackCount (process_linkage gC6 wC6
      (FlowStep.apiLinkage apiC6a apiC6b lfC6) [] [] [] 0).2.2.2 = 2 ∧
    fetchCallCount ("b6") (process_linkage gC6 wC6
      (FlowStep.apiLinkage apiC6a apiC6b lfC6) [] [] [] 0).2.2.2 = 2 := by
  have h := C6_fanout_two_values gC6 wC6 apiC6a apiC6b lfC6 [] [] [] [] 0 ("ids")
    (Json.str ("v1")) (Json.str ("v2")) pC6_1 pC6_2 rC6b1 rC6b2 cC6_1 cC6_2 cC6_3 1 2 3
    evC6_1 evC6_2 evC6_3 rfl rfl rfl rfl rfl (by decide)
  exact ⟨h.2.1, h.2.2⟩

end Flowlib
